import Mathlib

/-!
Shallow embedding of the osm-overwatch core (src/osm.py, src/filters.py,
src/adiff.py) and verification of the frozen claims about it.

Modelling conventions:
* Python `float` coordinates are modelled as `Rat`; the embedded code only
  stores and forwards coordinates, never does arithmetic on them.
* Optional XML attributes / Python `None` become `Option`.
* Python classes `NodeRef` and `OSMObject` define no `__eq__`, so `==` / `!=`
  on them is object identity.  The embedding tracks identity with an explicit
  allocation id (`pyId`); parsing allocates distinct ids, exactly as each
  `from_xml` call in the source builds a fresh object.
* Code paths that can raise a Python exception are embedded as
  `Except PyErr`; code that cannot raise stays a plain function.
* `shapely` is an external library.  `shapely.geometry.shape` is modelled as
  failing (TypeError) exactly when a coordinate that it must convert to float
  is `None`, and succeeding otherwise; intersection testing is an abstract
  oracle parameter `inter`, so theorems below hold for every possible
  intersection behaviour.  A shapely geometry is falsy iff it is empty, which
  the model mirrors in `Shape.truthy`.
-/

namespace Overwatch

/-- Python exception kinds that the embedded code can raise. -/
inductive PyErr where
  | attributeError
  | typeError
  | notImplementedError
deriving DecidableEq, Repr

/-- Boolean ok-test on `Except` results (did the Python call return rather
than raise?). -/
def isOkB {α : Type} : Except PyErr α → Bool
  | .ok _ => true
  | .error _ => false

/-- `OSMType` enumeration from src/osm.py. -/
inductive OSMType where
  | NODE
  | WAY
  | RELATION
deriving DecidableEq, Repr

/-- Fields shared by every `OSMObject` (src/osm.py, class OSMObject), plus
the allocation id `pyId` standing for Python object identity. -/
structure OSMCommon where
  pyId : Nat
  id : Int
  version : Option Int
  timestamp : Option String
  uid : Option Int
  user : Option String
  changeset : Option Int
  visible : Bool
  tags : List (String × String)
deriving DecidableEq, Repr

/-- `NodeRef` (src/osm.py lines 178-190).  Note that the source constructor
reads `self.lat = None` / `self.lon = None`, discarding its `lat`/`lon`
parameters; `NodeRef.init` below embeds that faithfully. -/
structure NodeRef where
  pyId : Nat
  ref : Int
  lat : Option Rat
  lon : Option Rat
deriving DecidableEq, Repr

/-- `RelationMember` (src/osm.py). -/
structure RelationMember where
  type : OSMType
  ref : Int
  role : String
deriving DecidableEq, Repr

/-- The `OSMObject` class hierarchy (Node / Way / Relation) as a sum. -/
inductive OSMObject where
  | node (c : OSMCommon) (lat lon : Option Rat)
  | way (c : OSMCommon) (nodes : List NodeRef)
  | relation (c : OSMCommon) (members : List RelationMember)
deriving DecidableEq, Repr

namespace OSMObject

def common : OSMObject → OSMCommon
  | node c _ _ => c
  | way c _ => c
  | relation c _ => c

/-- `self.type`, set by each subclass constructor. -/
def type : OSMObject → OSMType
  | node _ _ _ => OSMType.NODE
  | way _ _ => OSMType.WAY
  | relation _ _ => OSMType.RELATION

def id (o : OSMObject) : Int := o.common.id

def uid (o : OSMObject) : Option Int := o.common.uid

def changeset (o : OSMObject) : Option Int := o.common.changeset

def visible (o : OSMObject) : Bool := o.common.visible

def tags (o : OSMObject) : List (String × String) := o.common.tags

end OSMObject

/-- Python `dict.get(key)` on the tag dictionary (keys unique). -/
def tagsGet (tags : List (String × String)) (k : String) : Option String :=
  (tags.find? (fun p => p.1 == k)).map (fun p => p.2)

/-- `NodeRef.__init__` (src/osm.py lines 179-182): accepts `ref`, `lat`,
`lon` but assigns `None` to `self.lat` and `self.lon`, discarding the
arguments.  The embedding reproduces the source exactly. -/
def NodeRef.init (pyId : Nat) (ref : Int) (lat lon : Option Rat) : NodeRef :=
  { pyId := pyId, ref := ref, lat := none, lon := none }

/-- An `nd` child element of a `way` element, with its already-parsed
attributes (`ref` required, `lat`/`lon` optional). -/
structure NdElem where
  ref : Int
  lat : Option Rat
  lon : Option Rat
deriving DecidableEq, Repr

/-- `NodeRef.from_xml` (src/osm.py lines 184-190): builds a fresh `NodeRef`
(fresh identity `pyId`) passing the element's ref/lat/lon to `__init__`. -/
def NodeRef.fromXml (e : NdElem) (pyId : Nat) : NodeRef :=
  NodeRef.init pyId e.ref e.lat e.lon

/-- The node list built by `Way.from_xml` (src/osm.py line 153):
`[NodeRef.from_xml(node) for node in elem.findall("nd")]` — one fresh
object per `nd` element, so all identities are distinct. -/
def wayNodesFromXml (nds : List NdElem) : List NodeRef :=
  (nds.zip (List.range nds.length)).map (fun p => NodeRef.fromXml p.1 p.2)

/-- Python `==` on `NodeRef`s: the class defines no `__eq__`, so the default
object-identity comparison applies. -/
def NodeRef.pyEq (a b : NodeRef) : Bool := a.pyId == b.pyId

/-- A `__geo_interface__` GeoJSON-like dictionary; coordinates may be the
Python value `None` (the embedded `Option` none). -/
inductive Geometry where
  | point (lon lat : Option Rat)
  | lineString (coords : List (Option Rat × Option Rat))
  | polygon (rings : List (List (Option Rat × Option Rat)))
deriving DecidableEq, Repr

/-- `Way.__geo_interface__` (src/osm.py lines 156-175).  The branch test is
the source's `self.nodes[0] == self.nodes[-1]`, i.e. object identity
(`NodeRef.pyEq`). -/
def wayGeoInterface (nodes : List NodeRef) : Geometry :=
  match nodes with
  | [] => Geometry.polygon []
  | n0 :: rest =>
    if n0.pyEq ((n0 :: rest).getLast (List.cons_ne_nil n0 rest)) then
      Geometry.polygon [(n0 :: rest).map (fun n => (n.lon, n.lat))]
    else
      Geometry.lineString ((n0 :: rest).map (fun n => (n.lon, n.lat)))

/-- `__geo_interface__` dispatched over the three subclasses:
Node (src/osm.py lines 100-105), Way (156-175), Relation (247-251, raises
`NotImplementedError`). -/
def osmGeoInterface : OSMObject → Except PyErr Geometry
  | OSMObject.node _ lat lon => Except.ok (Geometry.point lon lat)
  | OSMObject.way _ nodes => Except.ok (wayGeoInterface nodes)
  | OSMObject.relation _ _ => Except.error PyErr.notImplementedError

/-- A shapely geometry: every coordinate a real number (modelled `Rat`). -/
inductive Shape where
  | point (lon lat : Rat)
  | lineString (coords : List (Rat × Rat))
  | polygon (rings : List (List (Rat × Rat)))
deriving DecidableEq, Repr

/-- shapely's float conversion of one coordinate pair: raises TypeError on
`None`. -/
def coordPair : Option Rat × Option Rat → Except PyErr (Rat × Rat)
  | (some x, some y) => Except.ok (x, y)
  | _ => Except.error PyErr.typeError

def coordList (l : List (Option Rat × Option Rat)) :
    Except PyErr (List (Rat × Rat)) :=
  l.mapM coordPair

/-- `shapely.geometry.shape` applied to a `__geo_interface__` dictionary:
fails iff a coordinate it must convert is `None`. -/
def shapelyShape : Geometry → Except PyErr Shape
  | Geometry.point lon lat =>
    match lon, lat with
    | some x, some y => Except.ok (Shape.point x y)
    | _, _ => Except.error PyErr.typeError
  | Geometry.lineString cs =>
    match coordList cs with
    | Except.ok l => Except.ok (Shape.lineString l)
    | Except.error e => Except.error e
  | Geometry.polygon rings =>
    match rings.mapM coordList with
    | Except.ok rs => Except.ok (Shape.polygon rs)
    | Except.error e => Except.error e

/-- `shapely.geometry.shape(obj)`: reads `obj.__geo_interface__` then
converts it. -/
def osmShape (o : OSMObject) : Except PyErr Shape :=
  match osmGeoInterface o with
  | Except.ok g => shapelyShape g
  | Except.error e => Except.error e

/-- shapely truthiness: a geometry is falsy iff empty. -/
def Shape.truthy : Shape → Bool
  | Shape.polygon [] => false
  | Shape.lineString [] => false
  | _ => true

/-- `Action` (src/adiff.py lines 70-91): declared kind string plus optional
old/new objects. -/
structure Action where
  action : String
  old : Option OSMObject
  new : Option OSMObject
deriving DecidableEq, Repr

/-!  Filters (src/filters.py).  Each `matches` method becomes a function of
the filter's construction-time configuration and the action; `NewUserFilter`
additionally threads its mutable seen-id set. -/

/-- `UserIDChangedFilter.matches` (src/filters.py lines 28-30). -/
def matchesUserIDChanged (userId : Int) (a : Action) : Bool :=
  match a.old, a.new with
  | some o, some n => o.uid == some userId && n.uid != some userId
  | _, _ => false

/-- `UserIDMadeChangeFilter.matches` (src/filters.py lines 44-46). -/
def matchesUserIDMadeChange (userId : Int) (a : Action) : Bool :=
  match a.new with
  | some n => n.uid == some userId
  | none => false

/-- `NewUserFilter.matches` (src/filters.py lines 62-72), with the mutable
`self.user_ids` set threaded explicitly. -/
def matchesNewUser (userIds : Finset (Option Int)) (a : Action) :
    Bool × Finset (Option Int) :=
  match a.new with
  | none => (false, userIds)
  | some n =>
    if n.uid ∉ userIds then (true, insert n.uid userIds)
    else (false, userIds)

/-- Python `old or new` on two optional objects (an `OSMObject` is always
truthy). -/
def pyOrObj (o n : Option OSMObject) : Option OSMObject :=
  match o with
  | some x => some x
  | none => n

/-- `ObjectChangedFilter.matches` (src/filters.py lines 87-96).  When both
`old` and `new` are absent, `thing_to_check` is `None` and the attribute
access `thing_to_check.type` raises `AttributeError`. -/
def matchesObjectChanged (objType : OSMType) (objId : Int) (a : Action) :
    Except PyErr Bool :=
  match pyOrObj a.old a.new with
  | some thing => Except.ok (thing.type == objType && thing.id == objId)
  | none => Except.error PyErr.attributeError

/-- The test `old and old.type == OSMType.RELATION` (and likewise for new)
in `ChangeInShapeFilter.matches`. -/
def isRelationOpt : Option OSMObject → Bool
  | some o => o.type == OSMType.RELATION
  | none => false

/-- The shape-building step of `ChangeInShapeFilter.matches` (src/filters.py
lines 123-129): present and visible objects get a shapely shape (which may
raise), others leave the local variable `None`. -/
def buildVisibleShape : Option OSMObject → Except PyErr (Option Shape)
  | none => Except.ok none
  | some o =>
    if o.visible then
      match osmShape o with
      | Except.ok s => Except.ok (some s)
      | Except.error e => Except.error e
    else Except.ok none

/-- The test `old and new and old.changeset == new.changeset`
(src/filters.py line 134); `==` on two `None` changesets is true. -/
def sameChangeset : Option OSMObject → Option OSMObject → Bool
  | some o, some n => o.changeset == n.changeset
  | _, _ => false

/-- Python `new_shape or old_shape` (shapely geometries are falsy when
empty). -/
def pyOrShape (n o : Option Shape) : Option Shape :=
  match n with
  | some s => if s.truthy then some s else o
  | none => o

/-- `ChangeInShapeFilter.matches` (src/filters.py lines 114-139).
`inter` is the shapely intersection oracle, `fs` the filter's prepared
shape.  The final `return thing and thing.intersects(self.shape)` returns a
falsy value (`None` or an empty geometry) when `thing` is falsy; the model
renders every falsy return as `false`. -/
def matchesChangeInShape (inter : Shape → Shape → Bool) (fs : Shape)
    (a : Action) : Except PyErr Bool :=
  if isRelationOpt a.old || isRelationOpt a.new then Except.ok false
  else
    match buildVisibleShape a.old with
    | Except.error e => Except.error e
    | Except.ok oldShape =>
      match buildVisibleShape a.new with
      | Except.error e => Except.error e
      | Except.ok newShape =>
        if sameChangeset a.old a.new then Except.ok false
        else
          match pyOrShape newShape oldShape with
          | some s => Except.ok (s.truthy && inter s fs)
          | none => Except.ok false

/-- The 5-point closed ring `ChangeInBoundingBoxFilter.__init__` builds from
`(minlon, minlat, maxlon, maxlat)` (src/filters.py lines 149-164). -/
def bboxShape (minlon minlat maxlon maxlat : Rat) : Shape :=
  Shape.polygon [[(minlon, minlat), (minlon, maxlat), (maxlon, maxlat),
    (maxlon, minlat), (minlon, minlat)]]

/-- The per-side tag lookup in `TagValueInListFilter.matches`:
`old.tags.get(self.tag) if old else None`. -/
def tagValueOf (o : Option OSMObject) (tag : String) : Option String :=
  match o with
  | some obj => tagsGet obj.tags tag
  | none => none

/-- `TagValueInListFilter.matches` (src/filters.py lines 182-188).  Python
`new_value in self.values` with `new_value = None` and a list of strings is
false. -/
def matchesTagValueInList (tag : String) (values : List String) (a : Action) :
    Bool :=
  (tagValueOf a.old tag != tagValueOf a.new tag) &&
    (match tagValueOf a.new tag with
     | some v => values.contains v
     | none => false)

/-- Python `old != new` inside `ObjectWithTagChangedFilter.matches`:
`OSMObject` defines no `__eq__`, so this is object-identity inequality
(true whenever `new` is `None`, since an object never equals `None`). -/
def pyNeObj (old : OSMObject) (new : Option OSMObject) : Bool :=
  match new with
  | none => true
  | some n => old.common.pyId != n.common.pyId

/-- `ObjectWithTagChangedFilter.matches` (src/filters.py lines 203-213). -/
def matchesObjectWithTagChanged (tag value : String) (a : Action) : Bool :=
  let oldHasTag :=
    match a.old with
    | some o => tagsGet o.tags tag == some value
    | none => false
  let newHasTag :=
    match a.new with
    | some n => tagsGet n.tags tag == some value
    | none => false
  (oldHasTag && (match a.old with
                 | some o => pyNeObj o a.new
                 | none => false))
    || (a.action == "create" && newHasTag)

/-- `ChangeContainer` (src/adiff.py lines 14-29). -/
structure ChangeContainer where
  version : String
  generator : String
  note : Option String
  creates : List Action
  modifies : List Action
  deletes : List Action
deriving DecidableEq, Repr

/-- `ChangeContainer.changes` (src/adiff.py lines 63-67):
`self.creates + self.modifies + self.deletes`. -/
def ChangeContainer.changes (c : ChangeContainer) : List Action :=
  c.creates ++ c.modifies ++ c.deletes

/-- One `action` element of the diff document, with its required `type`
attribute and the already-decoded first children of its `old`/`new`
wrappers. -/
structure ActionElem where
  kind : String
  oldChild : Option OSMObject
  newChild : Option OSMObject
deriving DecidableEq, Repr

/-- `Action.from_element` (src/adiff.py lines 81-91). -/
def Action.fromElement (ae : ActionElem) : Action :=
  { action := ae.kind, old := ae.oldChild, new := ae.newChild }

/-- The classification loop body of `ChangeContainer.from_element`
(src/adiff.py lines 52-59): dispatch on the declared `type` attribute only;
an unrecognised kind is appended to no list. -/
def classifyStep (c : ChangeContainer) (ae : ActionElem) : ChangeContainer :=
  let a := Action.fromElement ae
  if ae.kind == "create" then { c with creates := c.creates ++ [a] }
  else if ae.kind == "modify" then { c with modifies := c.modifies ++ [a] }
  else if ae.kind == "delete" then { c with deletes := c.deletes ++ [a] }
  else c

/-- `ChangeContainer.from_element` (src/adiff.py lines 41-61). -/
def ChangeContainer.fromElement (version generator : String)
    (note : Option String) (actions : List ActionElem) : ChangeContainer :=
  actions.foldl classifyStep
    { version := version, generator := generator, note := note,
      creates := [], modifies := [], deletes := [] }

/-! Concrete objects used by the closed witness statements. -/

def sampleCommon (pyId : Nat) (uid changeset : Option Int)
    (tags : List (String × String)) : OSMCommon :=
  { pyId := pyId, id := 101, version := some 1, timestamp := none,
    uid := uid, user := none, changeset := changeset, visible := true,
    tags := tags }

def nodeA : OSMObject :=
  OSMObject.node (sampleCommon 0 (some 4732) (some 55) [("name", "ok")])
    (some 45) (some (-93))

def nodeB : OSMObject :=
  OSMObject.node (sampleCommon 1 (some 4732) (some 55) [("name", "dumb")])
    (some 45) (some (-93))

def nodeC : OSMObject :=
  OSMObject.node (sampleCommon 2 (some 9999) none []) (some 45) (some (-93))

def nodeD : OSMObject :=
  OSMObject.node (sampleCommon 3 (some 9999) none []) (some 46) (some (-92))

def relSample : OSMObject :=
  OSMObject.relation (sampleCommon 4 (some 1) (some 7) []) []

/-! Theorems. -/

/-- Helper: a way parsed from `nd` elements never passes identity checks
between distinct positions, because `wayNodesFromXml` allocates distinct
`pyId`s. (Not itself a claim theorem.) -/
theorem changeInShape_sameChangeset_aux (inter : Shape → Shape → Bool)
    (fs : Shape) (a : Action)
    (h1 : isOkB (buildVisibleShape a.old) = true)
    (h2 : isOkB (buildVisibleShape a.new) = true)
    (h3 : sameChangeset a.old a.new = true) :
    matchesChangeInShape inter fs a = Except.ok false := by
  unfold matchesChangeInShape
  split
  · rfl
  · split
    · next e heq => rw [heq] at h1; simp [isOkB] at h1
    · split
      · next e heq => rw [heq] at h2; simp [isOkB] at h2
      · simp [h3]

/-- C1: the spec says a parsed way whose first and last node references have
the same ref id (e.g. refs `[1,2,3,1]`) yields a polygon ring; but
`NodeRef` defines no `__eq__`, so `self.nodes[0] == self.nodes[-1]` compares
object identity, which is false for the distinct objects `Way.from_xml`
builds — the code produces a 4-point line string instead (and, because
`NodeRef.__init__` discards coordinates, every coordinate is `None`).  The
empty-way branch does yield the empty polygon. -/
theorem wayGeo_parsed_closed_refs_yield_linestring :
    wayGeoInterface (wayNodesFromXml
        [{ ref := 1, lat := some 10, lon := some 20 },
         { ref := 2, lat := some 11, lon := some 21 },
         { ref := 3, lat := some 12, lon := some 22 },
         { ref := 1, lat := some 10, lon := some 20 }]) =
      Geometry.lineString [(none, none), (none, none), (none, none), (none, none)]
    ∧ wayGeoInterface (wayNodesFromXml []) = Geometry.polygon [] := by
  exact ⟨rfl, rfl⟩

/-- C3: the spec says a decoded `NodeRef` carries the `nd` element's inline
lat/lon when present; but `NodeRef.__init__` assigns `None` to `self.lat`
and `self.lon`, discarding its arguments, so the constructed `NodeRef` has
absent coordinates even when the element embeds them. -/
theorem nodeRef_fromXml_discards_inline_coords :
    NodeRef.fromXml { ref := 5, lat := some 15, lon := some 25 } 3 =
      { pyId := 3, ref := 5, lat := none, lon := none } := by
  exact rfl

/-- C2 counterexample: `ObjectChangedFilter.matches` raises
`AttributeError` (attribute access on `None`) when both `old` and `new`
are absent, so filter evaluation does not always return "no match" on
insufficient input. -/
theorem objectChangedFilter_raises_when_both_absent :
    matchesObjectChanged OSMType.NODE 1
        { action := "modify", old := none, new := none } =
      Except.error PyErr.attributeError := by
  exact rfl

/-- C2 (amended): filter evaluation returns "no match" on insufficient
input for the user, tag and object-with-tag filters; `ObjectChangedFilter`
returns without raising whenever at least one of old/new is present; and
`ChangeInShapeFilter` returns without raising whenever a present object is
a Relation or the geometry of every present visible object is
constructible. -/
theorem filters_insufficient_inputs_no_match (a : Action) (u : Int)
    (S : Finset (Option Int)) (t : OSMType) (i : Int) (tag value : String)
    (values : List String) (inter : Shape → Shape → Bool) (fs : Shape) :
    (a.old = none ∨ a.new = none → matchesUserIDChanged u a = false)
    ∧ (a.new = none → matchesUserIDMadeChange u a = false)
    ∧ (a.new = none → matchesNewUser S a = (false, S))
    ∧ (a.new = none → matchesTagValueInList tag values a = false)
    ∧ (a.old = none ∧ a.new = none →
        matchesObjectWithTagChanged tag value a = false)
    ∧ (a.old.isSome ∨ a.new.isSome →
        isOkB (matchesObjectChanged t i a) = true)
    ∧ ((isRelationOpt a.old || isRelationOpt a.new) = true
        ∨ (isOkB (buildVisibleShape a.old) = true
            ∧ isOkB (buildVisibleShape a.new) = true) →
        isOkB (matchesChangeInShape inter fs a) = true) := by
  refine ⟨?_, ?_, ?_, ?_, ?_, ?_, ?_⟩
  · intro h
    rcases h with h | h <;>
      cases ho : a.old <;> cases hn : a.new <;>
        simp_all [matchesUserIDChanged]
  · intro h; simp [matchesUserIDMadeChange, h]
  · intro h; simp [matchesNewUser, h]
  · intro h; simp [matchesTagValueInList, tagValueOf, h]
  · rintro ⟨h1, h2⟩; simp [matchesObjectWithTagChanged, h1, h2]
  · intro h
    cases ho : a.old with
    | some o => simp [matchesObjectChanged, pyOrObj, ho, isOkB]
    | none =>
      cases hn : a.new with
      | some n => simp [matchesObjectChanged, pyOrObj, ho, hn, isOkB]
      | none => rw [ho, hn] at h; simp at h
  · intro h
    unfold matchesChangeInShape
    split
    · rfl
    · next hrel =>
      rcases h with h | ⟨h1, h2⟩
      · exact absurd h hrel
      · split
        · next e heq => rw [heq] at h1; simp [isOkB] at h1
        · split
          · next e heq => rw [heq] at h2; simp [isOkB] at h2
          · split
            · rfl
            · split <;> rfl

/-- C2 witness: the amended statement applied at concrete inputs. -/
theorem filters_insufficient_inputs_no_match_witness :
    matchesUserIDChanged 4732 { action := "modify", old := none, new := none } = false
    ∧ isOkB (matchesObjectChanged OSMType.NODE 1
        { action := "delete", old := some nodeA, new := none }) = true := by
  constructor
  · exact (filters_insufficient_inputs_no_match
      { action := "modify", old := none, new := none } 4732 ∅ OSMType.NODE 1
      "name" "x" [] (fun _ _ => true) (Shape.point 0 0)).1 (Or.inl rfl)
  · exact (filters_insufficient_inputs_no_match
      { action := "delete", old := some nodeA, new := none } 4732 ∅ OSMType.NODE 1
      "name" "x" [] (fun _ _ => true) (Shape.point 0 0)).2.2.2.2.2.1
      (Or.inl rfl)

/-- C4: when old and new are both present and carry the same changeset id,
`ChangeInShapeFilter.matches` returns `False` (for every intersection
oracle, i.e. even when either geometry intersects the filter shape),
provided the shape-building step that precedes the changeset test does not
raise. -/
theorem changeInShape_same_changeset_suppressed (inter : Shape → Shape → Bool)
    (fs : Shape) (a : Action) (o n : OSMObject)
    (h1 : a.old = some o) (h2 : a.new = some n)
    (h3 : o.changeset = n.changeset)
    (h4 : isOkB (buildVisibleShape a.old) = true)
    (h5 : isOkB (buildVisibleShape a.new) = true) :
    matchesChangeInShape inter fs a = Except.ok false := by
  apply changeInShape_sameChangeset_aux inter fs a h4 h5
  rw [h1, h2]; simp [sameChangeset, h3]

/-- C4 witness: two nodes sharing changeset 55, with an oracle that makes
every geometry intersect, still do not match. -/
theorem changeInShape_same_changeset_suppressed_witness :
    matchesChangeInShape (fun _ _ => true) (Shape.point 0 0)
        { action := "modify", old := some nodeA, new := some nodeB } =
      Except.ok false := by
  exact changeInShape_same_changeset_suppressed (fun _ _ => true)
    (Shape.point 0 0) _ nodeA nodeB rfl rfl rfl rfl rfl

/-- C10: when old and new are both present and both changeset ids are
absent, the two `None` values compare equal, so the same-changeset
suppression applies and `ChangeInShapeFilter.matches` returns `False` for
every intersection oracle (provided shape building does not raise). -/
theorem changeInShape_absent_changesets_suppressed (inter : Shape → Shape → Bool)
    (fs : Shape) (a : Action) (o n : OSMObject)
    (h1 : a.old = some o) (h2 : a.new = some n)
    (h3 : o.changeset = none) (h4 : n.changeset = none)
    (h5 : isOkB (buildVisibleShape a.old) = true)
    (h6 : isOkB (buildVisibleShape a.new) = true) :
    matchesChangeInShape inter fs a = Except.ok false := by
  apply changeInShape_sameChangeset_aux inter fs a h5 h6
  rw [h1, h2]; simp [sameChangeset, h3, h4]

/-- C10 witness: two visible nodes with geometry but absent changesets do
not match, even under an all-intersecting oracle. -/
theorem changeInShape_absent_changesets_suppressed_witness :
    matchesChangeInShape (fun _ _ => true) (Shape.point 0 0)
        { action := "modify", old := some nodeC, new := some nodeD } =
      Except.ok false := by
  exact changeInShape_absent_changesets_suppressed (fun _ _ => true)
    (Shape.point 0 0) _ nodeC nodeD rfl rfl rfl rfl rfl rfl

/-- C5: if the old or the new object (whichever is present) is a Relation,
`ChangeInShapeFilter.matches` returns `False` immediately, for every
intersection oracle and without invoking geometry derivation — which for a
Relation would raise `NotImplementedError`, as the second conjunct
records. -/
theorem changeInShape_relation_no_match (inter : Shape → Shape → Bool)
    (fs : Shape) (a : Action)
    (h : isRelationOpt a.old = true ∨ isRelationOpt a.new = true) :
    matchesChangeInShape inter fs a = Except.ok false
    ∧ ∀ (c : OSMCommon) (ms : List RelationMember),
        osmGeoInterface (OSMObject.relation c ms) =
          Except.error PyErr.notImplementedError := by
  constructor
  · have hc : (isRelationOpt a.old || isRelationOpt a.new) = true := by
      rcases h with h | h <;> simp [h]
    unfold matchesChangeInShape
    simp [hc]
  · intro c ms; rfl

/-- C5 witness: an action deleting a relation never matches a shape filter,
even under an all-intersecting oracle. -/
theorem changeInShape_relation_no_match_witness :
    matchesChangeInShape (fun _ _ => true) (Shape.point 0 0)
        { action := "delete", old := some relSample, new := none } =
      Except.ok false := by
  exact (changeInShape_relation_no_match (fun _ _ => true) (Shape.point 0 0)
    { action := "delete", old := some relSample, new := none }
    (Or.inl rfl)).1

/-- C6: `NewUserFilter.matches` returns true iff `new` is present and its
uid is not in the seen set; on a present `new` the resulting set is the old
set with the uid inserted; and a second action carrying the same uid
against the updated set never matches again. -/
theorem newUserFilter_spec (S : Finset (Option Int)) (a : Action) :
    ((matchesNewUser S a).1 = true ↔ ∃ n, a.new = some n ∧ n.uid ∉ S)
    ∧ (∀ n, a.new = some n → (matchesNewUser S a).2 = insert n.uid S)
    ∧ (∀ (b : Action) (n nb : OSMObject), a.new = some n → b.new = some nb →
        nb.uid = n.uid → (matchesNewUser (matchesNewUser S a).2 b).1 = false) := by
  refine ⟨?_, ?_, ?_⟩
  · cases hn : a.new with
    | none => simp [matchesNewUser, hn]
    | some n =>
      by_cases hm : n.uid ∈ S
      · simp [matchesNewUser, hn, hm]
      · simp [matchesNewUser, hn, hm]
  · intro n hn
    by_cases hm : n.uid ∈ S
    · simp [matchesNewUser, hn, hm, Finset.insert_eq_self.mpr hm]
    · simp [matchesNewUser, hn, hm]
  · intro b n nb hn hb huid
    have hset : (matchesNewUser S a).2 = insert n.uid S := by
      by_cases hm : n.uid ∈ S
      · simp [matchesNewUser, hn, hm, Finset.insert_eq_self.mpr hm]
      · simp [matchesNewUser, hn, hm]
    rw [hset]
    have hmem : nb.uid ∈ insert n.uid S := by
      rw [huid]; exact Finset.mem_insert_self _ _
    simp [matchesNewUser, hb, hmem]

/-- C6 witness: with seen set `{4732}`, uid 9999 matches once and not a
second time, and uid 4732 does not match. -/
theorem newUserFilter_spec_witness :
    (matchesNewUser {some 4732}
        { action := "create", old := none, new := some nodeC }).1 = true
    ∧ (matchesNewUser
        (matchesNewUser {some 4732}
          { action := "create", old := none, new := some nodeC }).2
        { action := "modify", old := some nodeC, new := some nodeD }).1 = false
    ∧ (matchesNewUser {some 4732}
        { action := "modify", old := some nodeA, new := some nodeB }).1 = false := by
  refine ⟨?_, ?_, ?_⟩
  · exact (newUserFilter_spec {some 4732}
      { action := "create", old := none, new := some nodeC }).1.mpr
      ⟨nodeC, rfl, by decide⟩
  · exact (newUserFilter_spec {some 4732}
      { action := "create", old := none, new := some nodeC }).2.2
      { action := "modify", old := some nodeC, new := some nodeD }
      nodeC nodeD rfl rfl rfl
  · decide

/-- C7: `TagValueInListFilter.matches` returns true iff the old and new tag
values differ and the new value is one of the watched values, where a value
is absent when the corresponding object is absent; in particular a tag
staying constant at a watched value does not match. -/
theorem tagValueInList_spec (tag : String) (values : List String) (a : Action) :
    matchesTagValueInList tag values a = true ↔
      (tagValueOf a.old tag ≠ tagValueOf a.new tag
        ∧ ∃ v, tagValueOf a.new tag = some v ∧ v ∈ values) := by
  unfold matchesTagValueInList
  cases hn : tagValueOf a.new tag with
  | none => simp
  | some v => simp

/-- C7 witness: a `name` tag changing from `ok` to `dumb` matches
`TagValueInListFilter("name", ["stupid", "dumb"])`; a tag staying at
`dumb` does not. -/
theorem tagValueInList_spec_witness :
    matchesTagValueInList "name" ["stupid", "dumb"]
        { action := "modify", old := some nodeA, new := some nodeB } = true
    ∧ matchesTagValueInList "name" ["stupid", "dumb"]
        { action := "modify", old := some nodeB, new := some nodeB } = false := by
  constructor
  · exact (tagValueInList_spec "name" ["stupid", "dumb"]
      { action := "modify", old := some nodeA, new := some nodeB }).mpr
      ⟨by decide, "dumb", by decide, by decide⟩
  · decide

/-- Helper: full characterisation of the classification fold in
`ChangeContainer.from_element`. (Not itself a claim theorem.) -/
theorem classify_foldl (acts : List ActionElem) (c : ChangeContainer) :
    acts.foldl classifyStep c =
      { c with
        creates := c.creates ++
          (acts.filter (fun ae => ae.kind == "create")).map Action.fromElement,
        modifies := c.modifies ++
          (acts.filter (fun ae => ae.kind == "modify")).map Action.fromElement,
        deletes := c.deletes ++
          (acts.filter (fun ae => ae.kind == "delete")).map Action.fromElement } := by
  induction acts generalizing c with
  | nil => simp
  | cons ae rest ih =>
    rw [List.foldl_cons, ih]
    by_cases h1 : ae.kind = "create"
    · simp [classifyStep, List.filter_cons, h1]
    · by_cases h2 : ae.kind = "modify"
      · simp [classifyStep, List.filter_cons, h1, h2]
      · by_cases h3 : ae.kind = "delete"
        · simp [classifyStep, List.filter_cons, h1, h2, h3]
        · simp [classifyStep, List.filter_cons, h1, h2, h3]

/-- C8: for every decoded document, `changes()` is the concatenation
creates ++ modifies ++ deletes in that fixed order — the creates are
exactly the create-kind entries in document order, then the modify-kind
entries, then the delete-kind entries, regardless of how kinds interleave
in the input — and its length is the sum of the three lengths. -/
theorem changeContainer_changes_ordered (v g : String) (note : Option String)
    (acts : List ActionElem) :
    (ChangeContainer.fromElement v g note acts).changes =
      ((acts.filter (fun ae => ae.kind == "create")).map Action.fromElement)
        ++ ((acts.filter (fun ae => ae.kind == "modify")).map Action.fromElement)
        ++ ((acts.filter (fun ae => ae.kind == "delete")).map Action.fromElement)
    ∧ (ChangeContainer.fromElement v g note acts).changes.length =
        (ChangeContainer.fromElement v g note acts).creates.length
          + (ChangeContainer.fromElement v g note acts).modifies.length
          + (ChangeContainer.fromElement v g note acts).deletes.length := by
  constructor
  · unfold ChangeContainer.fromElement
    rw [classify_foldl]
    simp [ChangeContainer.changes]
  · simp [ChangeContainer.changes, Nat.add_assoc]

/-- C9: decoding classifies each action into creates/modifies/deletes
solely by its declared kind attribute — each sequence is exactly the
document-order entries of that kind, whatever old/new look like — and an
action whose declared kind is unknown lands in none of the three sequences
while the rest of the container is still decoded (the fold is total). -/
theorem changeContainer_classified_by_kind (v g : String) (note : Option String)
    (acts : List ActionElem) :
    (ChangeContainer.fromElement v g note acts).creates =
        (acts.filter (fun ae => ae.kind == "create")).map Action.fromElement
    ∧ (ChangeContainer.fromElement v g note acts).modifies =
        (acts.filter (fun ae => ae.kind == "modify")).map Action.fromElement
    ∧ (ChangeContainer.fromElement v g note acts).deletes =
        (acts.filter (fun ae => ae.kind == "delete")).map Action.fromElement
    ∧ (∀ ae : ActionElem, ae.kind ≠ "create" → ae.kind ≠ "modify" →
        ae.kind ≠ "delete" →
        Action.fromElement ae ∉ (ChangeContainer.fromElement v g note acts).changes) := by
  have hc := classify_foldl acts
    { version := v, generator := g, note := note,
      creates := [], modifies := [], deletes := [] }
  refine ⟨?_, ?_, ?_, ?_⟩
  · unfold ChangeContainer.fromElement; rw [hc]; simp
  · unfold ChangeContainer.fromElement; rw [hc]; simp
  · unfold ChangeContainer.fromElement; rw [hc]; simp
  · intro ae h1 h2 h3 hmem
    unfold ChangeContainer.fromElement at hmem
    rw [hc] at hmem
    simp [ChangeContainer.changes, List.mem_append, List.mem_map,
      List.mem_filter] at hmem
    rcases hmem with ⟨ae2, ⟨_, hk⟩, heq⟩ | ⟨ae2, ⟨_, hk⟩, heq⟩ |
      ⟨ae2, ⟨_, hk⟩, heq⟩ <;>
    · have hkind : ae2.kind = ae.kind := congrArg Action.action heq
      rw [hkind] at hk
      simp_all

/-- C9 witness: a document interleaving a modify, an unknown kind and a
create classifies by kind and drops the unknown entry. -/
theorem changeContainer_classified_by_kind_witness :
    (ChangeContainer.fromElement "0.6" "test" none
        [{ kind := "modify", oldChild := some nodeA, newChild := some nodeB },
         { kind := "recreate", oldChild := none, newChild := some nodeC },
         { kind := "create", oldChild := none, newChild := some nodeD }]).creates =
      [{ action := "create", old := none, new := some nodeD }]
    ∧ Action.fromElement
        { kind := "recreate", oldChild := none, newChild := some nodeC } ∉
        (ChangeContainer.fromElement "0.6" "test" none
          [{ kind := "modify", oldChild := some nodeA, newChild := some nodeB },
           { kind := "recreate", oldChild := none, newChild := some nodeC },
           { kind := "create", oldChild := none, newChild := some nodeD }]).changes := by
  constructor
  · rw [(changeContainer_classified_by_kind "0.6" "test" none _).1]
    rfl
  · exact (changeContainer_classified_by_kind "0.6" "test" none _).2.2.2
      { kind := "recreate", oldChild := none, newChild := some nodeC }
      (by decide) (by decide) (by decide)

end Overwatch
